import Mathlib

/-!
Shallow embedding of the telegram-bot message-routing and provider-dispatch
pipeline (`BotService` and `LlmService`) together with proofs of the spec
claims about it.

Modelling conventions:
* JavaScript `undefined`-able values are `Option`; JS falsy-or defaulting
  (`x || d`, which also treats `0`, `""` as absent) is the `jsOr*` helpers.
* The per-chat history dictionary (`ChatHistory`) is a total function
  `String → List String`, missing keys reading as `[]` (the source reads
  `this.chatHistory[chatId] || []`).
* Network I/O is an oracle argument mapping the request an adapter would POST
  to either an error (transport failure / thrown property access) or the
  parsed response body.  Each adapter also returns the list of HTTP requests
  it attempted, so "no network call was made" is expressible.
* Numbers: token counts are `Nat`; `temperature` is `ℚ` (only equality with
  literals such as `0.7 = 7/10` matters to the code, no float arithmetic).
-/

/-- JS `x || d` on an optional number: `undefined` and `0` are falsy. -/
def jsOrNat (x : Option Nat) (d : Nat) : Nat :=
  match x with
  | none => d
  | some n => if n = 0 then d else n

/-- JS `x || d` on an optional rational: `undefined` and `0` are falsy. -/
def jsOrRat (x : Option ℚ) (d : ℚ) : ℚ :=
  match x with
  | none => d
  | some q => if q = 0 then d else q

/-- JS `x || d` on an optional string: `undefined` and `""` are falsy. -/
def jsOrStr (x : Option String) (d : String) : String :=
  match x with
  | none => d
  | some s => if s = "" then d else s

/-- JS `x || y` on two optional strings, keeping the result optional. -/
def jsOrStrOpt (x y : Option String) : Option String :=
  match x with
  | none => y
  | some s => if s = "" then y else x

/-- JS `s.startsWith(p)`, modelled on the character list (the built-in
`String.startsWith` does not reduce in the kernel). -/
def strStartsWith (s p : String) : Bool := p.data.isPrefixOf s.data

/-- JS `s.substring(n)`, modelled on the character list. -/
def strDrop (s : String) (n : Nat) : String := ⟨s.data.drop n⟩

/-- JS `s.trim()`: strip whitespace from both ends. -/
def strTrim (s : String) : String :=
  ⟨((s.data.dropWhile Char.isWhitespace).reverse.dropWhile Char.isWhitespace).reverse⟩

/-- JS `s.toLowerCase()` (ASCII, as `String.toLower`). -/
def strToLower (s : String) : String := ⟨s.data.map Char.toLower⟩

/-- `BotConfig.personality` (config.interface.ts). -/
structure PersonalityConfig where
  name : String
  description : String
  traits : List String
  tone : String
  responseStyle : String
deriving Repr, DecidableEq

/-- `BotConfig.llm` (config.interface.ts); optional fields are `Option`. -/
structure LlmConfig where
  provider : String
  apiKey : String
  model : Option String
  endpoint : Option String
  maxTokens : Option Nat
  temperature : Option ℚ
  systemPrompt : Option String
deriving Repr, DecidableEq

/-- `BotConfig.settings` (config.interface.ts).  `allowedUsers` and
`blacklistedUsers` absent behave exactly as the empty list in the guards of
`handleMessage` (`?.length` and `?.includes` are falsy on `undefined`),
so both are plain lists here. -/
structure SettingsConfig where
  allowedUsers : List String
  blacklistedUsers : List String
  commandPrefix : Option String
  responseDelay : Nat
deriving Repr, DecidableEq

/-- One role-tagged message of a chat-completion payload. -/
structure ChatMessage where
  role : String
  content : String
deriving Repr, DecidableEq

/-- The uniform usage record of `LlmResponse` (llm.service.ts). -/
structure LlmUsage where
  promptTokens : Option Nat
  completionTokens : Option Nat
  totalTokens : Option Nat
deriving Repr, DecidableEq

/-- `LlmResponse` (llm.service.ts). -/
structure LlmResponse where
  text : String
  usage : Option LlmUsage
deriving Repr, DecidableEq

/-- One element of `data.choices` in an OpenAI-style response body. -/
structure ApiChoice where
  message : ChatMessage
deriving Repr, DecidableEq

/-- Response body shape read by the grok/openai adapters:
`data.choices[0].message.content` and `data.usage`. -/
structure OpenAiStyleData where
  choices : List ApiChoice
  usage : Option LlmUsage
deriving Repr, DecidableEq

/-- One element of `data.content` in an Anthropic response body. -/
structure AnthropicContentBlock where
  text : String
deriving Repr, DecidableEq

/-- `data.usage` of an Anthropic response body. -/
structure AnthropicUsage where
  input_tokens : Option Nat
  output_tokens : Option Nat
deriving Repr, DecidableEq

/-- Response body shape read by the anthropic adapter. -/
structure AnthropicData where
  content : List AnthropicContentBlock
  usage : Option AnthropicUsage
deriving Repr, DecidableEq

/-- Response body shape read by the custom adapter:
`data.text || data.response || data.content`, plus `data.usage`. -/
structure CustomData where
  text : Option String
  response : Option String
  content : Option String
  usage : Option LlmUsage
deriving Repr, DecidableEq

/-- The HTTP POST a grok/openai/anthropic adapter performs: target endpoint
plus the JSON payload fields (auth headers are not modelled). -/
structure OpenAiStyleRequest where
  endpoint : String
  model : String
  messages : List ChatMessage
  max_tokens : Nat
  temperature : ℚ
deriving Repr, DecidableEq

/-- The HTTP POST the custom adapter performs (flat payload shape). -/
structure CustomRequest where
  endpoint : String
  model : Option String
  system_prompt : String
  user_message : String
  chat_history : List String
  max_tokens : Nat
  temperature : ℚ
deriving Repr, DecidableEq

/-- Network oracle: for each provider, what the wire returns for a given
request — `.error` for a transport failure (or a thrown property access on a
malformed body), `.ok` for a parsed response body. -/
structure LlmNet where
  grok : OpenAiStyleRequest → Except String OpenAiStyleData
  openai : OpenAiStyleRequest → Except String OpenAiStyleData
  anthropic : OpenAiStyleRequest → Except String AnthropicData
  custom : CustomRequest → Except String CustomData

/-- `LlmService.formatChatHistory`, with the running loop index made explicit:
`role = i % 2 === 0 ? 'user' : 'assistant'`. -/
def formatChatHistoryFrom (i : Nat) : List String → List ChatMessage
  | [] => []
  | s :: rest =>
    { role := if i % 2 = 0 then "user" else "assistant", content := s }
      :: formatChatHistoryFrom (i + 1) rest

/-- `LlmService.formatChatHistory` (llm.service.ts, lines 302-314). -/
def formatChatHistory (chatHistory : List String) : List ChatMessage :=
  formatChatHistoryFrom 0 chatHistory

/-- `LlmService.generateSystemPrompt` (llm.service.ts, lines 99-108). -/
def generateSystemPrompt (p : PersonalityConfig) : String :=
  "You are " ++ p.name ++ ", " ++ p.description ++ ". \n" ++
  "Your personality traits include: " ++ String.intercalate ", " p.traits ++ ".\n" ++
  "You speak in a " ++ p.tone ++ " tone and your response style is " ++
  p.responseStyle ++ ".\n" ++
  "Respond to the user's messages in character, maintaining this personality consistently."

/-- The request `callGrokApi` POSTs (llm.service.ts, lines 123-144). -/
def grokRequest (cfg : LlmConfig) (systemPrompt userMessage : String)
    (chatHistory : List String) : OpenAiStyleRequest :=
  { endpoint := jsOrStr cfg.endpoint "https://api.grok.x/v1/chat/completions"
    model := jsOrStr cfg.model "grok-3"
    messages := { role := "system", content := systemPrompt }
      :: formatChatHistory chatHistory ++ [{ role := "user", content := userMessage }]
    max_tokens := jsOrNat cfg.maxTokens 1000
    temperature := jsOrRat cfg.temperature (7/10) }

/-- `LlmService.callGrokApi` (llm.service.ts, lines 113-156).  Returns the
adapter result together with the list of HTTP requests attempted. -/
def callGrokApi (cfg : LlmConfig) (net : OpenAiStyleRequest → Except String OpenAiStyleData)
    (systemPrompt userMessage : String) (chatHistory : List String) :
    Except String LlmResponse × List OpenAiStyleRequest :=
  let req := grokRequest cfg systemPrompt userMessage chatHistory
  match net req with
  | .error e => (.error e, [req])
  | .ok data =>
    match data.choices.head? with
    | none => (.error "undefined choices", [req])
    | some c => (.ok { text := c.message.content, usage := data.usage }, [req])

/-- The request `callOpenAiApi` POSTs (llm.service.ts, lines 167-188). -/
def openAiRequest (cfg : LlmConfig) (systemPrompt userMessage : String)
    (chatHistory : List String) : OpenAiStyleRequest :=
  { endpoint := jsOrStr cfg.endpoint "https://api.openai.com/v1/chat/completions"
    model := jsOrStr cfg.model "gpt-4"
    messages := { role := "system", content := systemPrompt }
      :: formatChatHistory chatHistory ++ [{ role := "user", content := userMessage }]
    max_tokens := jsOrNat cfg.maxTokens 1000
    temperature := jsOrRat cfg.temperature (7/10) }

/-- `LlmService.callOpenAiApi` (llm.service.ts, lines 161-200). -/
def callOpenAiApi (cfg : LlmConfig) (net : OpenAiStyleRequest → Except String OpenAiStyleData)
    (systemPrompt userMessage : String) (chatHistory : List String) :
    Except String LlmResponse × List OpenAiStyleRequest :=
  let req := openAiRequest cfg systemPrompt userMessage chatHistory
  match net req with
  | .error e => (.error e, [req])
  | .ok data =>
    match data.choices.head? with
    | none => (.error "undefined choices", [req])
    | some c => (.ok { text := c.message.content, usage := data.usage }, [req])

/-- The request `callAnthropicApi` POSTs (llm.service.ts, lines 211-236); the
source places the system prompt inside the `messages` array. -/
def anthropicRequest (cfg : LlmConfig) (systemPrompt userMessage : String)
    (chatHistory : List String) : OpenAiStyleRequest :=
  { endpoint := jsOrStr cfg.endpoint "https://api.anthropic.com/v1/messages"
    model := jsOrStr cfg.model "claude-3-opus-20240229"
    messages := { role := "system", content := systemPrompt }
      :: formatChatHistory chatHistory ++ [{ role := "user", content := userMessage }]
    max_tokens := jsOrNat cfg.maxTokens 1000
    temperature := jsOrRat cfg.temperature (7/10) }

/-- `LlmService.callAnthropicApi` (llm.service.ts, lines 205-253):
`promptTokens = usage?.input_tokens`, `completionTokens = usage?.output_tokens`,
`totalTokens = (usage?.input_tokens || 0) + (usage?.output_tokens || 0)`. -/
def callAnthropicApi (cfg : LlmConfig) (net : OpenAiStyleRequest → Except String AnthropicData)
    (systemPrompt userMessage : String) (chatHistory : List String) :
    Except String LlmResponse × List OpenAiStyleRequest :=
  let req := anthropicRequest cfg systemPrompt userMessage chatHistory
  match net req with
  | .error e => (.error e, [req])
  | .ok data =>
    match data.content.head? with
    | none => (.error "undefined content", [req])
    | some block =>
      (.ok { text := block.text
             usage := some
               { promptTokens := data.usage.bind (fun u => u.input_tokens)
                 completionTokens := data.usage.bind (fun u => u.output_tokens)
                 totalTokens := some
                   ((data.usage.bind (fun u => u.input_tokens)).getD 0 +
                    (data.usage.bind (fun u => u.output_tokens)).getD 0) } },
       [req])

/-- `LlmService.callCustomApi` (llm.service.ts, lines 258-297): raises before
any POST when no endpoint is configured (JS falsy check, so `""` also fails);
text is the first truthy of `data.text || data.response || data.content`
(`undefined` result modelled as `""`). -/
def callCustomApi (cfg : LlmConfig) (net : CustomRequest → Except String CustomData)
    (systemPrompt userMessage : String) (chatHistory : List String) :
    Except String LlmResponse × List CustomRequest :=
  match cfg.endpoint with
  | none => (.error "Custom API endpoint is required but not provided", [])
  | some ep =>
    if ep = "" then (.error "Custom API endpoint is required but not provided", [])
    else
      let req : CustomRequest :=
        { endpoint := ep
          model := cfg.model
          system_prompt := systemPrompt
          user_message := userMessage
          chat_history := chatHistory
          max_tokens := jsOrNat cfg.maxTokens 1000
          temperature := jsOrRat cfg.temperature (7/10) }
      match net req with
      | .error e => (.error e, [req])
      | .ok data =>
        (.ok { text := (jsOrStrOpt (jsOrStrOpt data.text data.response) data.content).getD ""
               usage := data.usage },
         [req])

/-- The body of the `try` block of `LlmService.generateResponse`: resolve the
system prompt, then `switch (provider)` into the matching adapter; an unknown
provider throws `Unsupported LLM provider`. -/
def llmDispatch (cfg : LlmConfig) (p : PersonalityConfig) (net : LlmNet)
    (userMessage : String) (chatHistory : List String) : Except String LlmResponse :=
  let systemPrompt := jsOrStr cfg.systemPrompt (generateSystemPrompt p)
  if cfg.provider = "grok" then
    (callGrokApi cfg net.grok systemPrompt userMessage chatHistory).1
  else if cfg.provider = "openai" then
    (callOpenAiApi cfg net.openai systemPrompt userMessage chatHistory).1
  else if cfg.provider = "anthropic" then
    (callAnthropicApi cfg net.anthropic systemPrompt userMessage chatHistory).1
  else if cfg.provider = "custom" then
    (callCustomApi cfg net.custom systemPrompt userMessage chatHistory).1
  else
    .error ("Unsupported LLM provider: " ++ cfg.provider)

/-- The fixed fallback string of `LlmService.generateResponse`. -/
def fallbackResponse : String :=
  "I'm sorry, I'm having trouble processing your request right now. Please try again later."

/-- `LlmService.generateResponse` (llm.service.ts, lines 37-94): the catch
around the dispatch turns any failure into the fixed fallback string. -/
def generateResponse (cfg : LlmConfig) (p : PersonalityConfig) (net : LlmNet)
    (userMessage : String) (chatHistory : List String) : String :=
  match llmDispatch cfg p net userMessage chatHistory with
  | .ok r => r.text
  | .error _ => fallbackResponse

/-- `BotService.maxHistoryLength` (bot.service.ts, line 21). -/
def maxHistoryLength : Nat := 10

/-- The truncation step of `addToChatHistory`: JS
`if (h.length > maxHistoryLength * 2) h = h.slice(-maxHistoryLength * 2)`
(`slice(-n)` keeps the last `n` elements). -/
def keepLast (l : List String) : List String :=
  if l.length > maxHistoryLength * 2 then l.drop (l.length - maxHistoryLength * 2) else l

/-- The effect of `addToChatHistory` on one chat's list: push, then truncate. -/
def pushBounded (history : List String) (message : String) : List String :=
  keepLast (history ++ [message])

/-- `BotService.addToChatHistory` (bot.service.ts, lines 187-201) on the keyed
history table. -/
def addToChatHistory (store : String → List String) (chatId message : String) :
    String → List String :=
  fun c => if c = chatId then pushBounded (store chatId) message else store c

/-- `BotService.getChatHistory` (bot.service.ts, lines 206-208); the
`|| []` default is the store's total-function reading. -/
def getChatHistory (store : String → List String) (chatId : String) : List String :=
  store chatId

/-- The initial (empty) chat-history table. -/
def emptyChatHistory : String → List String := fun _ => []

/-- Outcome of routing one inbound message: the updated history table, the
texts replied to the user, and the `(userMessage, history)` arguments of each
call made to the response generator. -/
structure RouteOutcome where
  store : String → List String
  replies : List String
  genCalls : List (String × List String)

/-- The fixed apology string of `BotService.handleMessage`. -/
def errorReply : String :=
  "I'm sorry, I encountered an error while processing your message."

/-- The `reset` confirmation string of `BotService.handleCustomCommand`. -/
def resetReply : String := "I've reset our conversation history."

/-- The `debug` reply of `handleCustomCommand` (JSON.stringify rendering
abbreviated; no claim depends on its exact shape). -/
def debugReply (chatId userId : String) (historyLength : Nat)
    (botName llmProvider : String) : String :=
  "Debug information:\n\x7b chatId: " ++ chatId ++ ", userId: " ++ userId ++
  ", historyLength: " ++ toString historyLength ++ ", botName: " ++ botName ++
  ", llmProvider: " ++ llmProvider ++ " \x7d"

/-- `BotService.handleCustomCommand` (bot.service.ts, lines 139-168). -/
def handleCustomCommand (settings : SettingsConfig) (botName llmProvider : String)
    (store : String → List String) (chatId userId messageText : String) : RouteOutcome :=
  let p := (settings.commandPrefix).getD ""
  let command := strTrim (strDrop messageText p.length)
  if strToLower command = "reset" then
    { store := fun c => if c = chatId then [] else store c
      replies := [resetReply]
      genCalls := [] }
  else if strToLower command = "debug" then
    { store := store
      replies := [debugReply chatId userId (store chatId).length botName llmProvider]
      genCalls := [] }
  else
    { store := store
      replies := ["Unknown command: " ++ command]
      genCalls := [] }

/-- The command-interception guard of `handleMessage`:
`this.settings.commandPrefix && messageText.startsWith(prefix)`
(an undefined or empty configured value is falsy). -/
def commandIntercepts (settings : SettingsConfig) (messageText : String) : Bool :=
  match settings.commandPrefix with
  | none => false
  | some p => p != "" && strStartsWith messageText p

/-- `BotService.handleMessage` (bot.service.ts, lines 73-134).  The generator
is a parameter (`BotService.generateResponse` delegates to
`LlmService.generateResponse`); an `.error` result models a thrown exception,
which the router's catch converts into the fixed apology. -/
def handleMessage (settings : SettingsConfig) (botName llmProvider : String)
    (gen : String → List String → Except String String)
    (store : String → List String) (chatId userId messageText : String) : RouteOutcome :=
  if settings.allowedUsers.length ≠ 0 ∧ userId ∉ settings.allowedUsers then
    { store := store, replies := [], genCalls := [] }
  else if userId ∈ settings.blacklistedUsers then
    { store := store, replies := [], genCalls := [] }
  else if commandIntercepts settings messageText then
    handleCustomCommand settings botName llmProvider store chatId userId messageText
  else
    let store1 := addToChatHistory store chatId messageText
    let history := getChatHistory store1 chatId
    match gen messageText history with
    | .ok response =>
      { store := addToChatHistory store1 chatId response
        replies := [response]
        genCalls := [(messageText, history)] }
    | .error _ =>
      { store := store1
        replies := [errorReply]
        genCalls := [(messageText, history)] }

/-- The wiring of `BotService` to `LlmService`: the generator used by the
router is `LlmService.generateResponse`, which never throws (`.ok` always). -/
def botHandleMessage (cfg : LlmConfig) (p : PersonalityConfig) (net : LlmNet)
    (settings : SettingsConfig) (store : String → List String)
    (chatId userId messageText : String) : RouteOutcome :=
  handleMessage settings p.name cfg.provider
    (fun um h => .ok (generateResponse cfg p net um h)) store chatId userId messageText

/-! ### Sample fixtures shared by witness theorems -/

/-- A network oracle on which every call fails (transport down). -/
def failingNet : LlmNet where
  grok := fun _ => .error "network unavailable"
  openai := fun _ => .error "network unavailable"
  anthropic := fun _ => .error "network unavailable"
  custom := fun _ => .error "network unavailable"

/-- A concrete provider configuration used by witnesses. -/
def sampleCfg : LlmConfig :=
  { provider := "grok", apiKey := "k", model := some "grok-3", endpoint := none,
    maxTokens := some 500, temperature := some (1/2), systemPrompt := some "be nice" }

/-- A concrete personality used by witnesses. -/
def samplePersonality : PersonalityConfig :=
  { name := "TestBot", description := "a test bot", traits := ["helpful", "friendly"],
    tone := "casual", responseStyle := "concise" }

/-- Concrete router settings used by witnesses. -/
def sampleSettings : SettingsConfig :=
  { allowedUsers := [], blacklistedUsers := [], commandPrefix := some "/", responseDelay := 0 }

/-- A concrete custom-provider configuration with an endpoint set. -/
def customCfg : LlmConfig :=
  { provider := "custom", apiKey := "k", model := some "custom-model",
    endpoint := some "https://custom-api.example.com", maxTokens := none,
    temperature := none, systemPrompt := none }

/-- The role-tagged messages contained in a custom-adapter wire payload.
The custom POST body (llm.service.ts, lines 268-284) is the flat record
`{model, system_prompt, user_message, chat_history, max_tokens, temperature}`:
unlike the grok/openai/anthropic payloads it carries no role-tagged message
entries at all, so this list is empty for every request. -/
def customPayloadMessages (_ : CustomRequest) : List ChatMessage := []

/-! ### Conversation-store lemmas -/

theorem keepLast_length (l : List String) : (keepLast l).length ≤ maxHistoryLength * 2 := by
  unfold keepLast
  split
  · rw [List.length_drop]; omega
  · omega

theorem keepLast_eq_self {l : List String} (h : l.length ≤ maxHistoryLength * 2) :
    keepLast l = l := by
  unfold keepLast
  rw [if_neg (by omega)]

theorem keepLast_append_left (l₁ l₂ : List String) (h : maxHistoryLength * 2 ≤ l₂.length) :
    keepLast (l₁ ++ l₂) = keepLast l₂ := by
  unfold keepLast
  rw [List.length_append]
  rcases lt_or_ge (maxHistoryLength * 2) (l₁.length + l₂.length) with hlt | hge
  · rw [if_pos hlt]
    have harith : l₁.length + l₂.length - maxHistoryLength * 2
        = l₁.length + (l₂.length - maxHistoryLength * 2) := by omega
    rw [harith, List.drop_append]
    split
    · rfl
    · have : l₂.length - maxHistoryLength * 2 = 0 := by omega
      rw [this, List.drop_zero]
  · rw [if_neg (by omega), if_neg (by omega)]
    have hl1 : l₁.length = 0 := by omega
    rw [List.eq_nil_of_length_eq_zero hl1, List.nil_append]

theorem keepLast_keepLast_append (l ms : List String) :
    keepLast (keepLast l ++ ms) = keepLast (l ++ ms) := by
  rcases le_or_lt l.length (maxHistoryLength * 2) with hle | hgt
  · rw [keepLast_eq_self hle]
  · have hk : keepLast l = l.drop (l.length - maxHistoryLength * 2) := by
      unfold keepLast; rw [if_pos hgt]
    have hdlen : (l.drop (l.length - maxHistoryLength * 2)).length = maxHistoryLength * 2 := by
      rw [List.length_drop]; omega
    calc keepLast (keepLast l ++ ms)
        = keepLast (l.drop (l.length - maxHistoryLength * 2) ++ ms) := by rw [hk]
      _ = keepLast ((l.take (l.length - maxHistoryLength * 2)
            ++ (l.drop (l.length - maxHistoryLength * 2) ++ ms))) :=
          (keepLast_append_left _ _ (by rw [List.length_append, hdlen]; omega)).symm
      _ = keepLast (l ++ ms) := by
          rw [← List.append_assoc, List.take_append_drop]

theorem foldl_pushBounded (ms : List String) :
    ∀ h₀ : List String, h₀.length ≤ maxHistoryLength * 2 →
      List.foldl pushBounded h₀ ms = keepLast (h₀ ++ ms) := by
  induction ms with
  | nil =>
    intro h₀ hh
    rw [List.foldl_nil, List.append_nil, keepLast_eq_self hh]
  | cons m ms ih =>
    intro h₀ hh
    rw [List.foldl_cons]
    rw [ih (pushBounded h₀ m) (keepLast_length _)]
    unfold pushBounded
    rw [keepLast_keepLast_append]
    rw [List.append_assoc]
    rfl

theorem foldl_addToChatHistory_apply (ms : List String) :
    ∀ (store : String → List String) (chatId : String),
      (List.foldl (fun s m => addToChatHistory s chatId m) store ms) chatId
        = List.foldl pushBounded (store chatId) ms := by
  induction ms with
  | nil => intro store chatId; rfl
  | cons m ms ih =>
    intro store chatId
    rw [List.foldl_cons, List.foldl_cons, ih]
    have : (addToChatHistory store chatId m) chatId = pushBounded (store chatId) m := by
      unfold addToChatHistory; rw [if_pos rfl]
    rw [this]

/-- C3: starting from the empty table, any sequence of appends to a chat keeps
that chat's stored history at most `2 × maxHistoryLength = 20` entries long,
and once more than 20 entries have been appended, `getChatHistory` returns
exactly the 20 most recently appended entries in original relative order
(the oldest dropped first). -/
theorem chatHistory_bounded (chatId : String) (msgs : List String) :
    (getChatHistory (msgs.foldl (fun s m => addToChatHistory s chatId m) emptyChatHistory)
        chatId).length ≤ maxHistoryLength * 2 ∧
    (maxHistoryLength * 2 < msgs.length →
      getChatHistory (msgs.foldl (fun s m => addToChatHistory s chatId m) emptyChatHistory)
          chatId = msgs.drop (msgs.length - maxHistoryLength * 2)) := by
  have hbase : (emptyChatHistory chatId).length ≤ maxHistoryLength * 2 := by
    simp [emptyChatHistory]
  have hfold :
      getChatHistory (msgs.foldl (fun s m => addToChatHistory s chatId m) emptyChatHistory)
          chatId = keepLast msgs := by
    unfold getChatHistory
    rw [foldl_addToChatHistory_apply, foldl_pushBounded msgs _ hbase]
    rfl
  constructor
  · rw [hfold]; exact keepLast_length msgs
  · intro hlen
    rw [hfold]
    unfold keepLast
    rw [if_pos hlen]

/-- Witness for C3: after appending 25 messages, exactly the last 20 remain. -/
theorem chatHistory_bounded_witness :
    maxHistoryLength * 2 < ((List.range 25).map toString).length ∧
    getChatHistory
        (((List.range 25).map toString).foldl
          (fun s m => addToChatHistory s "chat1" m) emptyChatHistory) "chat1"
      = ((List.range 25).map toString).drop (((List.range 25).map toString).length
          - maxHistoryLength * 2) :=
  ⟨by decide, (chatHistory_bounded "chat1" ((List.range 25).map toString)).2 (by decide)⟩

/-! ### History-to-messages lemmas -/

theorem formatChatHistoryFrom_length (i : Nat) (l : List String) :
    (formatChatHistoryFrom i l).length = l.length := by
  induction l generalizing i with
  | nil => rfl
  | cons s rest ih => simp [formatChatHistoryFrom, ih]

theorem formatChatHistoryFrom_get? (l : List String) : ∀ i j : Nat,
    (formatChatHistoryFrom i l).get? j = (l.get? j).map (fun s =>
      { role := if (i + j) % 2 = 0 then "user" else "assistant", content := s }) := by
  induction l with
  | nil => intro i j; simp [formatChatHistoryFrom]
  | cons s rest ih =>
    intro i j
    cases j with
    | zero => simp [formatChatHistoryFrom]
    | succ j =>
      show (formatChatHistoryFrom (i + 1) rest).get? j = _
      rw [ih (i + 1) j]
      have harith : i + 1 + j = i + (j + 1) := by omega
      rw [harith]
      rfl

theorem formatChatHistoryFrom_append (l₁ : List String) : ∀ (i : Nat) (l₂ : List String),
    formatChatHistoryFrom i (l₁ ++ l₂)
      = formatChatHistoryFrom i l₁ ++ formatChatHistoryFrom (i + l₁.length) l₂ := by
  induction l₁ with
  | nil => intro i l₂; simp [formatChatHistoryFrom]
  | cons s rest ih =>
    intro i l₂
    simp only [List.cons_append, formatChatHistoryFrom, List.length_cons, List.append_eq]
    rw [ih (i + 1) l₂]
    have harith : i + 1 + rest.length = i + (rest.length + 1) := by omega
    rw [harith]

/-- C6: `formatChatHistory` assigns role "user" to even 0-based indices and
"assistant" to odd indices, preserving order and length; the adapters append
the new user message as the final user-role entry of the payload; on
`["a","b","c"]` the result is `[user:a, assistant:b, user:c]`. -/
theorem formatChatHistory_roles (h : List String) (j : Nat) (cfg : LlmConfig)
    (sp um : String) :
    (formatChatHistory h).get? j = (h.get? j).map (fun s =>
        { role := if j % 2 = 0 then "user" else "assistant", content := s }) ∧
    (formatChatHistory h).length = h.length ∧
    formatChatHistory ["a", "b", "c"]
      = [⟨"user", "a"⟩, ⟨"assistant", "b"⟩, ⟨"user", "c"⟩] ∧
    (grokRequest cfg sp um h).messages.getLast? = some ⟨"user", um⟩ ∧
    (openAiRequest cfg sp um h).messages.getLast? = some ⟨"user", um⟩ ∧
    (anthropicRequest cfg sp um h).messages.getLast? = some ⟨"user", um⟩ := by
  refine ⟨?_, formatChatHistoryFrom_length 0 h, by decide, ?_, ?_, ?_⟩
  · have := formatChatHistoryFrom_get? h 0 j
    simpa [formatChatHistory] using this
  all_goals
    simp only [grokRequest, openAiRequest, anthropicRequest, ← List.cons_append,
      ← List.append_assoc, List.getLast?_concat]

/-! ### Payload-duplication lemmas -/

theorem pushBounded_eq_append (h : List String) (m : String) :
    ∃ pre, pushBounded h m = pre ++ [m] := by
  unfold pushBounded keepLast
  by_cases hgt : (h ++ [m]).length > maxHistoryLength * 2
  · have hmax : maxHistoryLength = 10 := rfl
    have hlen : (h ++ [m]).length = h.length + 1 := by simp
    have hle : (h ++ [m]).length - maxHistoryLength * 2 ≤ h.length := by omega
    refine ⟨h.drop ((h ++ [m]).length - maxHistoryLength * 2), ?_⟩
    rw [if_pos hgt, List.drop_append_of_le_length hle]
  · exact ⟨h, by rw [if_neg hgt]⟩

theorem pushBounded_getLast? (h : List String) (m : String) :
    (pushBounded h m).getLast? = some m := by
  obtain ⟨pre, hpre⟩ := pushBounded_eq_append h m
  rw [hpre, List.getLast?_concat]

theorem callGrokApi_log (cfg : LlmConfig)
    (f : OpenAiStyleRequest → Except String OpenAiStyleData) (sp um : String)
    (ch : List String) : (callGrokApi cfg f sp um ch).2 = [grokRequest cfg sp um ch] := by
  unfold callGrokApi
  rcases hf : f (grokRequest cfg sp um ch) with e | data
  · simp [hf]
  · rcases hd : data.choices.head? with _ | c <;> simp [hf, hd]

theorem callOpenAiApi_log (cfg : LlmConfig)
    (f : OpenAiStyleRequest → Except String OpenAiStyleData) (sp um : String)
    (ch : List String) : (callOpenAiApi cfg f sp um ch).2 = [openAiRequest cfg sp um ch] := by
  unfold callOpenAiApi
  rcases hf : f (openAiRequest cfg sp um ch) with e | data
  · simp [hf]
  · rcases hd : data.choices.head? with _ | c <;> simp [hf, hd]

theorem callAnthropicApi_log (cfg : LlmConfig)
    (f : OpenAiStyleRequest → Except String AnthropicData) (sp um : String)
    (ch : List String) :
    (callAnthropicApi cfg f sp um ch).2 = [anthropicRequest cfg sp um ch] := by
  unfold callAnthropicApi
  rcases hf : f (anthropicRequest cfg sp um ch) with e | data
  · simp [hf]
  · rcases hd : data.content.head? with _ | block <;> simp [hf, hd]

theorem callCustomApi_log (cfg : LlmConfig)
    (f : CustomRequest → Except String CustomData) (sp um : String)
    (ch : List String) (ep : String) (hep : cfg.endpoint = some ep) (hne : ep ≠ "") :
    (callCustomApi cfg f sp um ch).2
      = [{ endpoint := ep, model := cfg.model, system_prompt := sp, user_message := um,
           chat_history := ch, max_tokens := jsOrNat cfg.maxTokens 1000,
           temperature := jsOrRat cfg.temperature (7/10) }] := by
  unfold callCustomApi
  rw [hep]
  dsimp only
  rw [if_neg hne]
  rcases hf : f ⟨ep, cfg.model, sp, um, ch, jsOrNat cfg.maxTokens 1000,
      jsOrRat cfg.temperature (7/10)⟩ with e | data <;>
    simp [hf]

/-- C7 counterexample: the custom provider adapter does not append the new
user message as a final user-role entry of its payload — the flat custom POST
body carries no role-tagged entries at all.  Concretely, with history
`["hello"]` and message `"hello"` it POSTs exactly one request; that request's
role-tagged entry list is empty, while the user message occurs instead as the
`user_message` field and as the final element of `chat_history`. -/
theorem custom_adapter_no_user_role_entry :
    (callCustomApi customCfg failingNet.custom "sys" "hello" ["hello"]).2
      = [{ endpoint := "https://custom-api.example.com", model := some "custom-model",
           system_prompt := "sys", user_message := "hello", chat_history := ["hello"],
           max_tokens := 1000, temperature := 7/10 }] ∧
    ∀ req ∈ (callCustomApi customCfg failingNet.custom "sys" "hello" ["hello"]).2,
      (customPayloadMessages req).getLast? ≠ some ⟨"user", "hello"⟩ ∧
      req.user_message = "hello" ∧ req.chat_history.getLast? = some "hello" := by
  refine ⟨rfl, ?_⟩
  intro req hreq
  have hlist : (callCustomApi customCfg failingNet.custom "sys" "hello" ["hello"]).2
      = [{ endpoint := "https://custom-api.example.com", model := some "custom-model",
           system_prompt := "sys", user_message := "hello", chat_history := ["hello"],
           max_tokens := 1000, temperature := 7/10 }] := rfl
  rw [hlist, List.mem_singleton] at hreq
  subst hreq
  refine ⟨by simp [customPayloadMessages], rfl, rfl⟩

/-- C7 (amended): on the generation branch the router appends the raw user
text to the chat history first and calls the generator with that post-append
history, whose final element is the user text.  Each provider adapter POSTs
exactly one request in which the new user message consequently occurs twice:
the grok, openai and anthropic adapters append it as the final user-role
entry after the history-derived entries (whose last entry already carries
it), and the custom adapter sends it both as the `user_message` field and as
the final element of `chat_history`. -/
theorem userMessage_duplicated_in_payload (settings : SettingsConfig)
    (cfg : LlmConfig) (p : PersonalityConfig) (net : LlmNet)
    (store : String → List String) (chatId userId messageText : String)
    (hallow : ¬(settings.allowedUsers.length ≠ 0 ∧ userId ∉ settings.allowedUsers))
    (hblack : userId ∉ settings.blacklistedUsers)
    (hcmd : commandIntercepts settings messageText = false) :
    (botHandleMessage cfg p net settings store chatId userId messageText).genCalls
        = [(messageText, pushBounded (store chatId) messageText)] ∧
    (pushBounded (store chatId) messageText).getLast? = some messageText ∧
    (∀ (f : OpenAiStyleRequest → Except String OpenAiStyleData) (sp : String),
      (callGrokApi cfg f sp messageText (pushBounded (store chatId) messageText)).2
        = [grokRequest cfg sp messageText (pushBounded (store chatId) messageText)] ∧
      (callOpenAiApi cfg f sp messageText (pushBounded (store chatId) messageText)).2
        = [openAiRequest cfg sp messageText (pushBounded (store chatId) messageText)]) ∧
    (∀ (f : OpenAiStyleRequest → Except String AnthropicData) (sp : String),
      (callAnthropicApi cfg f sp messageText (pushBounded (store chatId) messageText)).2
        = [anthropicRequest cfg sp messageText (pushBounded (store chatId) messageText)]) ∧
    (∀ sp : String, ∃ (pre : List ChatMessage) (r : String),
      (grokRequest cfg sp messageText (pushBounded (store chatId) messageText)).messages
        = pre ++ [⟨r, messageText⟩, ⟨"user", messageText⟩] ∧
      (openAiRequest cfg sp messageText (pushBounded (store chatId) messageText)).messages
        = pre ++ [⟨r, messageText⟩, ⟨"user", messageText⟩] ∧
      (anthropicRequest cfg sp messageText (pushBounded (store chatId) messageText)).messages
        = pre ++ [⟨r, messageText⟩, ⟨"user", messageText⟩]) ∧
    (∀ (f : CustomRequest → Except String CustomData) (sp ep : String),
      cfg.endpoint = some ep → ep ≠ "" →
      (callCustomApi cfg f sp messageText (pushBounded (store chatId) messageText)).2
        = [{ endpoint := ep, model := cfg.model, system_prompt := sp,
             user_message := messageText,
             chat_history := pushBounded (store chatId) messageText,
             max_tokens := jsOrNat cfg.maxTokens 1000,
             temperature := jsOrRat cfg.temperature (7/10) }]) := by
  refine ⟨?_, pushBounded_getLast? _ _, ?_, ?_, ?_, ?_⟩
  · unfold botHandleMessage handleMessage
    rw [if_neg hallow, if_neg hblack, if_neg (by simp [hcmd])]
    simp [getChatHistory, addToChatHistory]
  · intro f sp
    exact ⟨callGrokApi_log cfg f sp messageText _, callOpenAiApi_log cfg f sp messageText _⟩
  · intro f sp
    exact callAnthropicApi_log cfg f sp messageText _
  · intro sp
    obtain ⟨pre, hpre⟩ := pushBounded_eq_append (store chatId) messageText
    have hmsg : (grokRequest cfg sp messageText
          (pushBounded (store chatId) messageText)).messages
        = (⟨"system", sp⟩ :: formatChatHistory pre)
          ++ [⟨if pre.length % 2 = 0 then "user" else "assistant", messageText⟩,
              ⟨"user", messageText⟩] := by
      simp only [grokRequest, hpre, formatChatHistory, formatChatHistoryFrom_append,
        Nat.zero_add, formatChatHistoryFrom]
      simp [List.append_assoc]
    exact ⟨_, _, hmsg, hmsg, hmsg⟩
  · intro f sp ep hep hne
    exact callCustomApi_log cfg f sp messageText _ ep hep hne

/-- C1: `LlmService.generateResponse` is total and, whenever the provider
dispatch fails for any reason (unsupported provider name, adapter/HTTP error,
malformed response), returns exactly the fixed fallback string; on success it
returns the adapter's text. -/
theorem generateResponse_fallback_on_failure (cfg : LlmConfig) (p : PersonalityConfig)
    (net : LlmNet) (userMessage : String) (chatHistory : List String) :
    (∀ e, llmDispatch cfg p net userMessage chatHistory = .error e →
      generateResponse cfg p net userMessage chatHistory = fallbackResponse) ∧
    (∀ r, llmDispatch cfg p net userMessage chatHistory = .ok r →
      generateResponse cfg p net userMessage chatHistory = r.text) ∧
    (cfg.provider ∉ (["grok", "openai", "anthropic", "custom"] : List String) →
      generateResponse cfg p net userMessage chatHistory = fallbackResponse) := by
  refine ⟨?_, ?_, ?_⟩
  · intro e he; unfold generateResponse; rw [he]
  · intro r hr; unfold generateResponse; rw [hr]
  · intro hmem
    simp only [List.mem_cons, List.not_mem_nil, or_false, not_or] at hmem
    obtain ⟨h1, h2, h3, h4⟩ := hmem
    unfold generateResponse llmDispatch
    rw [if_neg h1, if_neg h2, if_neg h3, if_neg h4]

/-- Witness for C1: a configuration with an unsupported provider name yields
the fallback string. -/
theorem generateResponse_fallback_witness :
    ("unsupported" : String) ∉ (["grok", "openai", "anthropic", "custom"] : List String) ∧
    generateResponse { sampleCfg with provider := "unsupported" } samplePersonality
        failingNet "Hello" ["hi"] = fallbackResponse :=
  ⟨by decide,
   (generateResponse_fallback_on_failure { sampleCfg with provider := "unsupported" }
      samplePersonality failingNet "Hello" ["hi"]).2.2 (by decide)⟩

/-- C2: on the generation branch, a generator that throws is caught inside the
router: the reply is exactly the fixed apology string, the user's message has
still been appended to the chat history (it is the last stored entry), and the
routing function returns normally (it is total, so no exception can escape). -/
theorem handleMessage_generation_error_caught (settings : SettingsConfig)
    (botName llmProvider : String) (gen : String → List String → Except String String)
    (store : String → List String) (chatId userId messageText : String)
    (hallow : ¬(settings.allowedUsers.length ≠ 0 ∧ userId ∉ settings.allowedUsers))
    (hblack : userId ∉ settings.blacklistedUsers)
    (hcmd : commandIntercepts settings messageText = false)
    (e : String)
    (hgen : gen messageText (pushBounded (store chatId) messageText) = .error e) :
    (handleMessage settings botName llmProvider gen store chatId userId messageText).replies
        = [errorReply] ∧
    (handleMessage settings botName llmProvider gen store chatId userId messageText).store
        chatId = pushBounded (store chatId) messageText ∧
    ∃ pre, (handleMessage settings botName llmProvider gen store chatId userId
        messageText).store chatId = pre ++ [messageText] := by
  have hstep :
      handleMessage settings botName llmProvider gen store chatId userId messageText
        = { store := addToChatHistory store chatId messageText
            replies := [errorReply]
            genCalls := [(messageText, pushBounded (store chatId) messageText)] } := by
    unfold handleMessage
    rw [if_neg hallow, if_neg hblack, if_neg (by simp [hcmd])]
    have hstore : getChatHistory (addToChatHistory store chatId messageText) chatId
        = pushBounded (store chatId) messageText := by
      simp [getChatHistory, addToChatHistory]
    dsimp only
    rw [hstore, hgen]
  rw [hstep]
  refine ⟨rfl, by simp [addToChatHistory], ?_⟩
  obtain ⟨pre, hpre⟩ := pushBounded_eq_append (store chatId) messageText
  exact ⟨pre, by simp [addToChatHistory, hpre]⟩

/-- Witness for C2: a concrete failing generator on a plain message. -/
theorem handleMessage_generation_error_caught_witness :
    ¬(sampleSettings.allowedUsers.length ≠ 0 ∧ "u1" ∉ sampleSettings.allowedUsers) ∧
    "u1" ∉ sampleSettings.blacklistedUsers ∧
    commandIntercepts sampleSettings "hello there" = false ∧
    (handleMessage sampleSettings "TestBot" "grok"
        (fun _ _ => .error "provider down") emptyChatHistory "c1" "u1" "hello there").replies
      = [errorReply] ∧
    (handleMessage sampleSettings "TestBot" "grok"
        (fun _ _ => .error "provider down") emptyChatHistory "c1" "u1" "hello there").store
      "c1" = pushBounded (emptyChatHistory "c1") "hello there" := by
  have h := handleMessage_generation_error_caught sampleSettings "TestBot" "grok"
    (fun _ _ => .error "provider down") emptyChatHistory "c1" "u1" "hello there"
    (by decide) (by decide) (by decide) "provider down" rfl
  exact ⟨by decide, by decide, by decide, h.1, h.2.1⟩

/-- C4: access control — if the allow-list is non-empty and the sender is not
in it, or if the sender is in the block-list (regardless of allow-list state),
the router returns with zero replies, no history mutation, and no generator
call. -/
theorem handleMessage_access_control (settings : SettingsConfig)
    (botName llmProvider : String) (gen : String → List String → Except String String)
    (store : String → List String) (chatId userId messageText : String) :
    (settings.allowedUsers.length ≠ 0 → userId ∉ settings.allowedUsers →
      (handleMessage settings botName llmProvider gen store chatId userId
          messageText).replies = [] ∧
      (handleMessage settings botName llmProvider gen store chatId userId
          messageText).store = store ∧
      (handleMessage settings botName llmProvider gen store chatId userId
          messageText).genCalls = []) ∧
    (userId ∈ settings.blacklistedUsers →
      (handleMessage settings botName llmProvider gen store chatId userId
          messageText).replies = [] ∧
      (handleMessage settings botName llmProvider gen store chatId userId
          messageText).store = store ∧
      (handleMessage settings botName llmProvider gen store chatId userId
          messageText).genCalls = []) := by
  constructor
  · intro h1 h2
    unfold handleMessage
    rw [if_pos ⟨h1, h2⟩]
    exact ⟨rfl, rfl, rfl⟩
  · intro hb
    unfold handleMessage
    by_cases hA : settings.allowedUsers.length ≠ 0 ∧ userId ∉ settings.allowedUsers
    · rw [if_pos hA]; exact ⟨rfl, rfl, rfl⟩
    · rw [if_neg hA, if_pos hb]; exact ⟨rfl, rfl, rfl⟩

/-- Witness for C4: a sender outside a configured allow-list is dropped, and a
blacklisted sender is dropped even while in the allow-list. -/
theorem handleMessage_access_control_witness :
    ((["123456"] : List String).length ≠ 0 ∧ ("654321" : String) ∉ (["123456"] : List String) ∧
      (handleMessage ⟨["123456"], [], some "/", 0⟩ "TestBot" "grok" (fun _ _ => .ok "r")
          emptyChatHistory "c1" "654321" "hi").replies = [] ∧
      (handleMessage ⟨["123456"], [], some "/", 0⟩ "TestBot" "grok" (fun _ _ => .ok "r")
          emptyChatHistory "c1" "654321" "hi").genCalls = []) ∧
    (("654321" : String) ∈ (["654321"] : List String) ∧
      (handleMessage ⟨["654321"], ["654321"], some "/", 0⟩ "TestBot" "grok"
          (fun _ _ => .ok "r") emptyChatHistory "c1" "654321" "hi").replies = [] ∧
      (handleMessage ⟨["654321"], ["654321"], some "/", 0⟩ "TestBot" "grok"
          (fun _ _ => .ok "r") emptyChatHistory "c1" "654321" "hi").genCalls = []) := by
  have h1 := (handleMessage_access_control ⟨["123456"], [], some "/", 0⟩ "TestBot" "grok"
    (fun _ _ => .ok "r") emptyChatHistory "c1" "654321" "hi").1 (by decide) (by decide)
  have h2 := (handleMessage_access_control ⟨["654321"], ["654321"], some "/", 0⟩ "TestBot"
    "grok" (fun _ _ => .ok "r") emptyChatHistory "c1" "654321" "hi").2 (by decide)
  exact ⟨⟨by decide, by decide, h1.1, h1.2.2⟩, ⟨by decide, h2.1, h2.2.2⟩⟩

/-- C5: with a configured command prefix, an inbound text that is the prefix
followed by "reset" (case-insensitively, after stripping the prefix and
trimming) clears that chat's history, replies exactly the fixed confirmation
string, and never invokes the response generator. -/
theorem handleMessage_reset_command (settings : SettingsConfig)
    (botName llmProvider : String) (gen : String → List String → Except String String)
    (store : String → List String) (chatId userId messageText : String) (pfx : String)
    (hallow : ¬(settings.allowedUsers.length ≠ 0 ∧ userId ∉ settings.allowedUsers))
    (hblack : userId ∉ settings.blacklistedUsers)
    (hp : settings.commandPrefix = some pfx) (hne : pfx ≠ "")
    (hstart : strStartsWith messageText pfx = true)
    (hreset : strToLower (strTrim (strDrop messageText pfx.length)) = "reset") :
    (handleMessage settings botName llmProvider gen store chatId userId
        messageText).replies = [resetReply] ∧
    (handleMessage settings botName llmProvider gen store chatId userId
        messageText).store chatId = [] ∧
    (handleMessage settings botName llmProvider gen store chatId userId
        messageText).genCalls = [] := by
  have hcmd : commandIntercepts settings messageText = true := by
    unfold commandIntercepts
    rw [hp]
    simp [hstart, hne]
  unfold handleMessage
  rw [if_neg hallow, if_neg hblack, if_pos hcmd]
  unfold handleCustomCommand
  rw [hp]
  dsimp only [Option.getD_some]
  rw [hreset, if_pos rfl]
  exact ⟨rfl, by simp, rfl⟩

/-- Witness for C5: `commandPrefix = "/"` and input `/reset`. -/
theorem handleMessage_reset_command_witness :
    sampleSettings.commandPrefix = some "/" ∧
    strStartsWith "/reset" "/" = true ∧
    strToLower (strTrim (strDrop "/reset" "/".length)) = "reset" ∧
    (handleMessage sampleSettings "TestBot" "grok" (fun _ _ => .ok "r")
        emptyChatHistory "c1" "u1" "/reset").replies = [resetReply] ∧
    (handleMessage sampleSettings "TestBot" "grok" (fun _ _ => .ok "r")
        emptyChatHistory "c1" "u1" "/reset").store "c1" = [] ∧
    (handleMessage sampleSettings "TestBot" "grok" (fun _ _ => .ok "r")
        emptyChatHistory "c1" "u1" "/reset").genCalls = [] := by
  have h := handleMessage_reset_command sampleSettings "TestBot" "grok" (fun _ _ => .ok "r")
    emptyChatHistory "c1" "u1" "/reset" "/" (by decide) (by decide) rfl (by decide)
    (by decide) (by decide)
  exact ⟨rfl, by decide, by decide, h.1, h.2.1, h.2.2⟩

/-- Witness for C7: a concrete plain message routed with the custom
configuration, exercising the router append, the messages-array duplication
and the custom flat-payload request. -/
theorem userMessage_duplicated_in_payload_witness :
    ¬(sampleSettings.allowedUsers.length ≠ 0 ∧ "u1" ∉ sampleSettings.allowedUsers) ∧
    "u1" ∉ sampleSettings.blacklistedUsers ∧
    commandIntercepts sampleSettings "hello" = false ∧
    customCfg.endpoint = some "https://custom-api.example.com" ∧
    ("https://custom-api.example.com" : String) ≠ "" ∧
    (botHandleMessage customCfg samplePersonality failingNet sampleSettings
        emptyChatHistory "c1" "u1" "hello").genCalls
      = [("hello", pushBounded (emptyChatHistory "c1") "hello")] ∧
    (pushBounded (emptyChatHistory "c1") "hello").getLast? = some "hello" ∧
    (∃ pre r, (grokRequest customCfg "sys" "hello"
        (pushBounded (emptyChatHistory "c1") "hello")).messages
      = pre ++ [⟨r, "hello"⟩, ⟨"user", "hello"⟩] ∧
      (openAiRequest customCfg "sys" "hello"
        (pushBounded (emptyChatHistory "c1") "hello")).messages
      = pre ++ [⟨r, "hello"⟩, ⟨"user", "hello"⟩] ∧
      (anthropicRequest customCfg "sys" "hello"
        (pushBounded (emptyChatHistory "c1") "hello")).messages
      = pre ++ [⟨r, "hello"⟩, ⟨"user", "hello"⟩]) ∧
    (callCustomApi customCfg failingNet.custom "sys" "hello"
        (pushBounded (emptyChatHistory "c1") "hello")).2
      = [{ endpoint := "https://custom-api.example.com", model := customCfg.model,
           system_prompt := "sys", user_message := "hello",
           chat_history := pushBounded (emptyChatHistory "c1") "hello",
           max_tokens := jsOrNat customCfg.maxTokens 1000,
           temperature := jsOrRat customCfg.temperature (7/10) }] := by
  have h := userMessage_duplicated_in_payload sampleSettings customCfg samplePersonality
    failingNet emptyChatHistory "c1" "u1" "hello" (by decide) (by decide) (by decide)
  exact ⟨by decide, by decide, by decide, rfl, by decide, h.1, h.2.1, h.2.2.2.2.1 "sys",
    h.2.2.2.2.2 failingNet.custom "sys" "https://custom-api.example.com" rfl (by decide)⟩

/-- C8: the anthropic adapter maps usage as `promptTokens = input_tokens`,
`completionTokens = output_tokens`, `totalTokens = input + output` with missing
operands defaulting to 0; concretely `{input_tokens:10, output_tokens:20}`
yields `{10, 20, 30}` and an absent usage yields
`{promptTokens: none, completionTokens: none, totalTokens: 0}`. -/
theorem anthropic_usage_mapping (cfg : LlmConfig) (sp um : String)
    (hist : List String) (t : String) (u : Option AnthropicUsage) :
    (callAnthropicApi cfg (fun _ => .ok ⟨[⟨t⟩], u⟩) sp um hist).1
      = .ok ⟨t, some ⟨u.bind (fun x => x.input_tokens), u.bind (fun x => x.output_tokens),
          some ((u.bind (fun x => x.input_tokens)).getD 0
            + (u.bind (fun x => x.output_tokens)).getD 0)⟩⟩ ∧
    (callAnthropicApi cfg (fun _ => .ok ⟨[⟨t⟩], some ⟨some 10, some 20⟩⟩) sp um hist).1
      = .ok ⟨t, some ⟨some 10, some 20, some 30⟩⟩ ∧
    (callAnthropicApi cfg (fun _ => .ok ⟨[⟨t⟩], none⟩) sp um hist).1
      = .ok ⟨t, some ⟨none, none, some 0⟩⟩ := by
  refine ⟨?_, ?_, ?_⟩ <;> rfl

/-- C9: with no configured endpoint, the custom adapter fails with its fixed
error before attempting any network call — its request log is empty, for every
input and every network oracle. -/
theorem callCustomApi_missing_endpoint (cfg : LlmConfig)
    (net : CustomRequest → Except String CustomData) (sp um : String)
    (hist : List String) (h : cfg.endpoint = none) :
    (callCustomApi cfg net sp um hist).1
      = .error "Custom API endpoint is required but not provided" ∧
    (callCustomApi cfg net sp um hist).2 = [] := by
  unfold callCustomApi
  rw [h]
  exact ⟨rfl, rfl⟩

/-- Witness for C9: a concrete endpoint-less custom configuration. -/
theorem callCustomApi_missing_endpoint_witness :
    ({ sampleCfg with provider := "custom" } : LlmConfig).endpoint = none ∧
    (callCustomApi { sampleCfg with provider := "custom" } failingNet.custom
        "s" "m" ["h"]).1 = .error "Custom API endpoint is required but not provided" ∧
    (callCustomApi { sampleCfg with provider := "custom" } failingNet.custom
        "s" "m" ["h"]).2 = [] :=
  ⟨rfl,
   (callCustomApi_missing_endpoint { sampleCfg with provider := "custom" }
      failingNet.custom "s" "m" ["h"] rfl).1,
   (callCustomApi_missing_endpoint { sampleCfg with provider := "custom" }
      failingNet.custom "s" "m" ["h"] rfl).2⟩

/-- A configuration with `maxTokens: 0` and `temperature: 0` explicitly set. -/
def zeroCfg : LlmConfig :=
  { provider := "grok", apiKey := "k", model := some "grok-3", endpoint := none,
    maxTokens := some 0, temperature := some 0, systemPrompt := none }

/-- C10 counterexample: with `temperature` configured as `0` (and `maxTokens`
as `0`), the request does NOT use the configured values — the JS `||`
defaulting treats `0` as absent, so the request carries `0.7` and `1000`. -/
theorem request_zero_config_counterexample :
    zeroCfg.temperature = some 0 ∧ zeroCfg.maxTokens = some 0 ∧
    (grokRequest zeroCfg "s" "m" []).temperature = 7/10 ∧
    (grokRequest zeroCfg "s" "m" []).temperature ≠ 0 ∧
    (grokRequest zeroCfg "s" "m" []).max_tokens = 1000 ∧
    (grokRequest zeroCfg "s" "m" []).max_tokens ≠ 0 := by
  refine ⟨rfl, rfl, ?_, ?_, by decide, by decide⟩
  · show jsOrRat (some 0) (7/10) = 7/10
    simp [jsOrRat]
  · show jsOrRat (some 0) (7/10) ≠ 0
    simp [jsOrRat]

/-- C10 amended: the request's `max_tokens` and `temperature` fall back to the
defaults 1000 and 0.7 when the configured value is absent or zero (JS falsy),
and use the configured value whenever it is present and non-zero. -/
theorem request_token_temperature_defaults (cfg : LlmConfig) (sp um : String)
    (hist : List String) :
    ((cfg.maxTokens = none ∨ cfg.maxTokens = some 0) →
      (grokRequest cfg sp um hist).max_tokens = 1000 ∧
      (openAiRequest cfg sp um hist).max_tokens = 1000) ∧
    (∀ n : Nat, cfg.maxTokens = some n → n ≠ 0 →
      (grokRequest cfg sp um hist).max_tokens = n ∧
      (openAiRequest cfg sp um hist).max_tokens = n) ∧
    ((cfg.temperature = none ∨ cfg.temperature = some 0) →
      (grokRequest cfg sp um hist).temperature = 7/10 ∧
      (openAiRequest cfg sp um hist).temperature = 7/10) ∧
    (∀ q : ℚ, cfg.temperature = some q → q ≠ 0 →
      (grokRequest cfg sp um hist).temperature = q ∧
      (openAiRequest cfg sp um hist).temperature = q) := by
  refine ⟨?_, ?_, ?_, ?_⟩
  · rintro (h | h) <;> simp [grokRequest, openAiRequest, jsOrNat, h]
  · intro n hn hne
    simp [grokRequest, openAiRequest, jsOrNat, hn, hne]
  · rintro (h | h) <;> simp [grokRequest, openAiRequest, jsOrRat, h]
  · intro q hq hne
    simp [grokRequest, openAiRequest, jsOrRat, hq, hne]

/-- Witness for C10 (amended): zero-configured values fall back to the
defaults; non-zero configured values are used as-is. -/
theorem request_token_temperature_defaults_witness :
    (zeroCfg.maxTokens = none ∨ zeroCfg.maxTokens = some 0) ∧
    (grokRequest zeroCfg "s" "m" []).max_tokens = 1000 ∧
    sampleCfg.temperature = some (1/2) ∧ ((1/2 : ℚ) ≠ 0) ∧
    (grokRequest sampleCfg "s" "m" []).temperature = 1/2 := by
  refine ⟨Or.inr rfl, ?_, rfl, by norm_num, ?_⟩
  · exact ((request_token_temperature_defaults zeroCfg "s" "m" []).1 (Or.inr rfl)).1
  · exact ((request_token_temperature_defaults sampleCfg "s" "m" []).2.2.2
      (1/2) rfl (by norm_num)).1
